import Mathlib

/-!
Shallow embedding of mostynb/zstdpool-syncpool (package syncpool):
`encoderpool.go` and `decoderpool.go`.

Modelling conventions:
* A `*zstd.Decoder` / `*zstd.Encoder` handle is a small state record; the Go
  pointer is `Option` (with `none` for `nil`, as returned by a failed
  `zstd.NewReader`/`zstd.NewWriter` call).
* The external zstd engine semantics used by this package:
  `Decoder.Reset` returns an error exactly when the decoder has been
  terminally closed; `Decoder.Close` terminally closes; `Encoder.Reset`
  returns nothing and rebinds the target; `Encoder.Close` closes.
* A `sync.Pool` is an explicit list of `PoolItem` (Go `interface{}` values),
  threaded through the operations as state; `Put` conses, `Get` removes an
  arbitrary element (no ordering guarantee) or hands back the `New` result.
* A Go runtime panic (failed type assertion, nil-pointer dereference, or an
  explicit `panic(err)`) is the `Outcome.panicked` constructor; normal
  return is `Outcome.ok`.
* `io.Reader` / `io.Writer` arguments are abstract ids (`Option Nat`,
  `none` for `nil`).
-/

namespace Syncpool

/-- A Go error value that can arise in this code. -/
inductive Err where
  | decoderClosed
  | nilPointer
  | badTypeAssertion
deriving DecidableEq, Repr

/-- Result of running a Go statement sequence: normal return, or a runtime
panic carrying the panic value. -/
inductive Outcome (α : Type) where
  | ok : α → Outcome α
  | panicked : Err → Outcome α
deriving DecidableEq, Repr

/-- State of a `*zstd.Decoder` handle: whether it has been terminally closed,
and the reader it is currently bound to (`none` = nil source). -/
structure Decoder where
  closed : Bool
  source : Option Nat
deriving DecidableEq, Repr

/-- `zstd.Decoder.Reset(r)`: fails (with `ErrDecoderClosed`) exactly when the
decoder has been terminally closed; otherwise rebinds the source. -/
def Decoder.Reset (d : Decoder) (r : Option Nat) : Decoder × Option Err :=
  if d.closed then (d, some Err.decoderClosed)
  else ({ d with source := r }, none)

/-- `zstd.Decoder.Close()`: terminal close; the decoder can never be Reset
again afterwards. -/
def Decoder.Close (d : Decoder) : Decoder :=
  { d with closed := true }

/-- State of a `*zstd.Encoder` handle: whether closed, and the writer it is
currently bound to (`none` = nil target). -/
structure Encoder where
  closed : Bool
  target : Option Nat
deriving DecidableEq, Repr

/-- `zstd.Encoder.Reset(w)`: rebinds the target; returns nothing. -/
def Encoder.Reset (e : Encoder) (w : Option Nat) : Encoder :=
  { e with target := w }

/-- `zstd.Encoder.Close()`. -/
def Encoder.Close (e : Encoder) : Encoder :=
  { e with closed := true }

/-- `DecoderWrapper` (decoderpool.go): embeds a `*zstd.Decoder`. The `id`
models the Go pointer identity of the wrapper allocation; the `pool`
back-reference of the Go struct is threaded explicitly through the
operations below. `none` in the `Decoder` field models a nil handle. -/
structure DecoderWrapper where
  id : Nat
  Decoder : Option Decoder
deriving DecidableEq, Repr

/-- `EncoderWrapper` (encoderpool.go): embeds a `*zstd.Encoder`. -/
structure EncoderWrapper where
  id : Nat
  Encoder : Option Encoder
deriving DecidableEq, Repr

/-- An `interface{}` value stored in a `sync.Pool`. -/
inductive PoolItem where
  | dw : DecoderWrapper → PoolItem
  | ew : EncoderWrapper → PoolItem
  | other : Nat → PoolItem
deriving DecidableEq, Repr

/-- `DecoderWrapper.Close` (decoderpool.go):
```
err := w.Decoder.Reset(nil)
if err == nil {
    w.pool.Put(w)
}
```
A nil embedded handle makes the `Reset` call a nil-pointer panic. -/
def DecoderWrapper.Close (w : DecoderWrapper) (pool : List PoolItem) :
    Outcome (DecoderWrapper × List PoolItem) :=
  match w.Decoder with
  | none => Outcome.panicked Err.nilPointer
  | some d =>
    let r := d.Reset none
    let w2 : DecoderWrapper := { w with Decoder := some r.1 }
    match r.2 with
    | none => Outcome.ok (w2, PoolItem.dw w2 :: pool)
    | some _ => Outcome.ok (w2, pool)

/-- The read-stream view `w.Decoder.IOReadCloser()` hands out: opaque, taken
at the decoder's state at creation time. -/
inductive StreamView where
  | ofDecoder : Decoder → StreamView
deriving DecidableEq, Repr

/-- `decoderReadCloser` (decoderpool.go): back-reference to the wrapper plus
the embedded `io.Reader` view. It carries no closed/released flag. -/
structure decoderReadCloser where
  dw : DecoderWrapper
  Reader : StreamView
deriving DecidableEq, Repr

/-- `DecoderWrapper.IOReadCloser` (decoderpool.go):
```
return &decoderReadCloser{ dw: w, Reader: w.Decoder.IOReadCloser() }
```
panics on a nil embedded handle. -/
def DecoderWrapper.IOReadCloser (w : DecoderWrapper) : Outcome decoderReadCloser :=
  match w.Decoder with
  | none => Outcome.panicked Err.nilPointer
  | some d => Outcome.ok { dw := w, Reader := StreamView.ofDecoder d }

/-- `decoderReadCloser.Close` (decoderpool.go):
```
w.dw.Close() // Returns the DecoderWrapper to the pool.
return nil
```
The returned `Option Err` is the Go `error` return value. -/
def decoderReadCloser.Close (c : decoderReadCloser) (pool : List PoolItem) :
    Outcome ((decoderReadCloser × List PoolItem) × Option Err) :=
  match DecoderWrapper.Close c.dw pool with
  | Outcome.panicked e => Outcome.panicked e
  | Outcome.ok (w2, pool2) => Outcome.ok (({ c with dw := w2 }, pool2), none)

/-- The construction function `p.New` installed by `NewDecoderPool`
(decoderpool.go), as a function of a fresh allocation id and the result
`(d, err)` of the external call `zstd.NewReader(nil, options...)`:
```
d, _ := zstd.NewReader(nil, options...)
dw := &DecoderWrapper{ Decoder: d, pool: p }
runtime.SetFinalizer(dw, ...)   -- see decoderFinalizer
return dw
```
The error is bound to `_` and discarded; the wrapper is produced
unconditionally, embedding the possibly-nil handle. -/
def NewDecoderPoolNew (nextId : Nat) (res : Option Decoder × Option Err) :
    DecoderWrapper :=
  { id := nextId, Decoder := res.1 }

/-- The finalizer callback `NewDecoderPool` registers on each wrapper
(decoderpool.go):
```
runtime.SetFinalizer(dw, func(dw *DecoderWrapper) {
    dw.Decoder.Close()
})
```
It terminally closes the embedded handle and does not touch the pool
(the pool argument is returned unchanged). -/
def decoderFinalizer (dw : DecoderWrapper) (pool : List PoolItem) :
    Outcome (DecoderWrapper × List PoolItem) :=
  match dw.Decoder with
  | none => Outcome.panicked Err.nilPointer
  | some d => Outcome.ok ({ dw with Decoder := some d.Close }, pool)

/-- The Go type assertion `x.(*DecoderWrapper)`; panics when the stored item
is of another type. -/
def assertDW (it : PoolItem) : Outcome DecoderWrapper :=
  match it with
  | PoolItem.dw w => Outcome.ok w
  | _ => Outcome.panicked Err.badTypeAssertion

/-- The Go type assertion `x.(*EncoderWrapper)`. -/
def assertEW (it : PoolItem) : Outcome EncoderWrapper :=
  match it with
  | PoolItem.ew w => Outcome.ok w
  | _ => Outcome.panicked Err.badTypeAssertion

/-- `DecoderPoolWrapper.Get` (decoderpool.go), as a function of the item
`d.pool.Get()` handed out by the sync.Pool (an idle item, or the `New`
result) and the caller's reader `r`:
```
dw := d.pool.Get().(*DecoderWrapper)
err := dw.Reset(r)
if err != nil { panic(err) }
return dw
```
`dw.Reset` is the promoted `zstd.Decoder.Reset`. -/
def DecoderPoolWrapper.Get (item : PoolItem) (r : Option Nat) :
    Outcome DecoderWrapper :=
  match assertDW item with
  | Outcome.panicked e => Outcome.panicked e
  | Outcome.ok dw =>
    match dw.Decoder with
    | none => Outcome.panicked Err.nilPointer
    | some d =>
      let res := d.Reset r
      match res.2 with
      | some e => Outcome.panicked e
      | none => Outcome.ok { dw with Decoder := some res.1 }

/-- `DecoderPoolWrapper.Put` (decoderpool.go):
```
err := w.Reset(nil)
if err == nil { d.pool.Put(w) }
```
Same body as `DecoderWrapper.Close` (`w.Reset` is the promoted
`zstd.Decoder.Reset`, and the facade's pool is the wrapper's pool). -/
def DecoderPoolWrapper.Put (pool : List PoolItem) (w : DecoderWrapper) :
    Outcome (DecoderWrapper × List PoolItem) :=
  match w.Decoder with
  | none => Outcome.panicked Err.nilPointer
  | some d =>
    let r := d.Reset none
    let w2 : DecoderWrapper := { w with Decoder := some r.1 }
    match r.2 with
    | none => Outcome.ok (w2, PoolItem.dw w2 :: pool)
    | some _ => Outcome.ok (w2, pool)

/-- The construction function `p.New` installed by `NewEncoderPool`
(encoderpool.go), as a function of a fresh allocation id and the result
`(e, err)` of the external call `zstd.NewWriter(nil, options...)`:
```
e, _ := zstd.NewWriter(nil, options...)
ew := &EncoderWrapper{ Encoder: e }
runtime.SetFinalizer(ew, ...)   -- see encoderFinalizer
return ew
```
The error is bound to `_` and discarded. -/
def NewEncoderPoolNew (nextId : Nat) (res : Option Encoder × Option Err) :
    EncoderWrapper :=
  { id := nextId, Encoder := res.1 }

/-- The finalizer callback `NewEncoderPool` registers on each wrapper
(encoderpool.go):
```
runtime.SetFinalizer(ew, func(ew *EncoderWrapper) {
    ew.Encoder.Close()
})
``` -/
def encoderFinalizer (ew : EncoderWrapper) : Outcome EncoderWrapper :=
  match ew.Encoder with
  | none => Outcome.panicked Err.nilPointer
  | some e => Outcome.ok { ew with Encoder := some e.Close }

/-- `EncoderPoolWrapper.Get` (encoderpool.go), as a function of the item
handed out by the sync.Pool and the caller's writer `w`:
```
ew := e.pool.Get().(*EncoderWrapper)
ew.Reset(w)
return ew
``` -/
def EncoderPoolWrapper.Get (item : PoolItem) (w : Option Nat) :
    Outcome EncoderWrapper :=
  match assertEW item with
  | Outcome.panicked e => Outcome.panicked e
  | Outcome.ok ew =>
    match ew.Encoder with
    | none => Outcome.panicked Err.nilPointer
    | some e => Outcome.ok { ew with Encoder := some (e.Reset w) }

/-- `EncoderPoolWrapper.Put` (encoderpool.go):
```
w.Reset(nil)
e.pool.Put(w)
```
No success gating: the wrapper is always pooled. -/
def EncoderPoolWrapper.Put (pool : List PoolItem) (w : EncoderWrapper) :
    Outcome (EncoderWrapper × List PoolItem) :=
  match w.Encoder with
  | none => Outcome.panicked Err.nilPointer
  | some e =>
    let w2 : EncoderWrapper := { w with Encoder := some (e.Reset none) }
    Outcome.ok (w2, PoolItem.ew w2 :: pool)

/-- One mutation of the decoder pool's contents by this package's own code:
a `DecoderWrapper.Close`, a `DecoderPoolWrapper.Put`, or the sync.Pool
handing an idle item out (or silently dropping it). A `Get` that misses
runs `New` and returns the fresh wrapper without storing it, so it does not
change the pool contents. -/
inductive DStep : List PoolItem → List PoolItem → Prop where
  | close (w w2 : DecoderWrapper) (pool pool2 : List PoolItem) :
      DecoderWrapper.Close w pool = Outcome.ok (w2, pool2) →
      DStep pool pool2
  | put (w w2 : DecoderWrapper) (pool pool2 : List PoolItem) :
      DecoderPoolWrapper.Put pool w = Outcome.ok (w2, pool2) →
      DStep pool pool2
  | getHit (l r : List PoolItem) (it : PoolItem) :
      DStep (l ++ it :: r) (l ++ r)

/-- Decoder pool contents reachable from the freshly constructed (empty)
pool of `NewDecoderPool` through this package's operations. -/
inductive DReach : List PoolItem → Prop where
  | empty : DReach []
  | step {p q : List PoolItem} : DReach p → DStep p q → DReach q

/-- One mutation of the encoder pool's contents by this package's own code. -/
inductive EStep : List PoolItem → List PoolItem → Prop where
  | put (w w2 : EncoderWrapper) (pool pool2 : List PoolItem) :
      EncoderPoolWrapper.Put pool w = Outcome.ok (w2, pool2) →
      EStep pool pool2
  | getHit (l r : List PoolItem) (it : PoolItem) :
      EStep (l ++ it :: r) (l ++ r)

/-- Encoder pool contents reachable from the freshly constructed (empty)
pool of `NewEncoderPool` through this package's operations. -/
inductive EReach : List PoolItem → Prop where
  | empty : EReach []
  | step {p q : List PoolItem} : EReach p → EStep p q → EReach q

/-- A healthy idle decoder-pool item: a `*DecoderWrapper` whose embedded
handle is live (non-nil, not terminally closed) and source-empty. -/
def DHealthy (it : PoolItem) : Prop :=
  ∃ w d, it = PoolItem.dw w ∧ w.Decoder = some d ∧
    d.closed = false ∧ d.source = none

/-- An encoder-pool item stored by this package: a `*EncoderWrapper` whose
embedded handle is non-nil and whose target has been reset to nil. -/
def EStored (it : PoolItem) : Prop :=
  ∃ w e, it = PoolItem.ew w ∧ w.Encoder = some e ∧ e.target = none

/-- A successful `DecoderWrapper.Close` either leaves the pool unchanged
(reset failed) or conses the healthy reset wrapper onto it. -/
theorem close_ok_cases {w w2 : DecoderWrapper} {pool pool2 : List PoolItem}
    (h : DecoderWrapper.Close w pool = Outcome.ok (w2, pool2)) :
    pool2 = pool ∨ (pool2 = PoolItem.dw w2 :: pool ∧ DHealthy (PoolItem.dw w2)) := by
  rcases hw : w.Decoder with _ | ⟨dc, ds⟩
  · simp [DecoderWrapper.Close, hw] at h
  · cases dc
    · simp [DecoderWrapper.Close, Decoder.Reset, hw] at h
      obtain ⟨rfl, rfl⟩ := h
      exact Or.inr ⟨rfl, _, _, rfl, rfl, rfl, rfl⟩
    · simp [DecoderWrapper.Close, Decoder.Reset, hw] at h
      exact Or.inl h.2.symm

/-- A successful `DecoderPoolWrapper.Put` either leaves the pool unchanged
(reset failed) or conses the healthy reset wrapper onto it. -/
theorem put_ok_cases {w w2 : DecoderWrapper} {pool pool2 : List PoolItem}
    (h : DecoderPoolWrapper.Put pool w = Outcome.ok (w2, pool2)) :
    pool2 = pool ∨ (pool2 = PoolItem.dw w2 :: pool ∧ DHealthy (PoolItem.dw w2)) := by
  rcases hw : w.Decoder with _ | ⟨dc, ds⟩
  · simp [DecoderPoolWrapper.Put, hw] at h
  · cases dc
    · simp [DecoderPoolWrapper.Put, Decoder.Reset, hw] at h
      obtain ⟨rfl, rfl⟩ := h
      exact Or.inr ⟨rfl, _, _, rfl, rfl, rfl, rfl⟩
    · simp [DecoderPoolWrapper.Put, Decoder.Reset, hw] at h
      exact Or.inl h.2.symm

/-- Each decoder-pool step preserves health of all idle items. -/
theorem dstep_preserves {p q : List PoolItem} (hs : DStep p q)
    (hp : ∀ it ∈ p, DHealthy it) : ∀ it ∈ q, DHealthy it := by
  cases hs with
  | close w w2 pool pool2 heq =>
    rcases close_ok_cases heq with rfl | ⟨rfl, hh⟩
    · exact hp
    · intro x hx
      rcases List.mem_cons.mp hx with rfl | hx2
      · exact hh
      · exact hp x hx2
  | put w w2 pool pool2 heq =>
    rcases put_ok_cases heq with rfl | ⟨rfl, hh⟩
    · exact hp
    · intro x hx
      rcases List.mem_cons.mp hx with rfl | hx2
      · exact hh
      · exact hp x hx2
  | getHit l r it =>
    intro x hx
    apply hp
    simp only [List.mem_append, List.mem_cons] at hx ⊢
    tauto

/-- Invariant: every item in a reachable decoder pool is a healthy
`*DecoderWrapper`. -/
theorem dreach_healthy {p : List PoolItem} (hp : DReach p) :
    ∀ it ∈ p, DHealthy it := by
  induction hp with
  | empty => intro it h; simp at h
  | step hr hs ih =>
    exact dstep_preserves hs ih

/-- Each encoder-pool step preserves the stored-item shape. -/
theorem estep_preserves {p q : List PoolItem} (hs : EStep p q)
    (hp : ∀ it ∈ p, EStored it) : ∀ it ∈ q, EStored it := by
  cases hs with
  | put w w2 pool pool2 heq =>
    rcases hw : w.Encoder with _ | e
    · simp [EncoderPoolWrapper.Put, hw] at heq
    · simp [EncoderPoolWrapper.Put, hw] at heq
      obtain ⟨rfl, rfl⟩ := heq
      intro x hx
      rcases List.mem_cons.mp hx with rfl | hx2
      · exact ⟨_, _, rfl, rfl, rfl⟩
      · exact hp x hx2
  | getHit l r it =>
    intro x hx
    apply hp
    simp only [List.mem_append, List.mem_cons] at hx ⊢
    tauto

/-- Invariant: every item in a reachable encoder pool is a reset
`*EncoderWrapper`. -/
theorem ereach_stored {p : List PoolItem} (hp : EReach p) :
    ∀ it ∈ p, EStored it := by
  induction hp with
  | empty => intro it h; simp at h
  | step hr hs ih =>
    exact estep_preserves hs ih

/-- C1: Under every `DecoderWrapper.Close` and `DecoderPoolWrapper.Put`, the
handle's source is first reset to empty (`Reset(nil)`), the wrapper is
returned to the pool iff that reset returns no error, no error is surfaced
to the releasing caller (the outcome is `ok` with no error component), and
the handle is not terminally closed by this call. -/
theorem C1_release_reset_gates_pooling (w : DecoderWrapper)
    (pool : List PoolItem) (d : Decoder) (h : w.Decoder = some d) :
    ∃ w2 : DecoderWrapper,
      w2.Decoder = some (d.Reset none).1 ∧
      ((d.Reset none).2 = none ↔ (d.Reset none).1.source = none ∧ d.closed = false) ∧
      DecoderWrapper.Close w pool =
        Outcome.ok (w2,
          if (d.Reset none).2 = none then PoolItem.dw w2 :: pool else pool) ∧
      DecoderPoolWrapper.Put pool w =
        Outcome.ok (w2,
          if (d.Reset none).2 = none then PoolItem.dw w2 :: pool else pool) ∧
      (d.Reset none).1.closed = d.closed := by
  refine ⟨{ w with Decoder := some (d.Reset none).1 }, rfl, ?_, ?_, ?_, ?_⟩ <;>
    rcases d with ⟨dc, ds⟩ <;> cases dc <;>
      simp [Decoder.Reset, DecoderWrapper.Close, DecoderPoolWrapper.Put, h]

/-- C1 witness: a live wrapper bound to source 5 is reset and pooled. -/
theorem C1_release_witness :
    ∃ w2 : DecoderWrapper,
      w2.Decoder = some ((Decoder.mk false (some 5)).Reset none).1 ∧
      (((Decoder.mk false (some 5)).Reset none).2 = none ↔
        ((Decoder.mk false (some 5)).Reset none).1.source = none ∧
          (Decoder.mk false (some 5)).closed = false) ∧
      DecoderWrapper.Close (DecoderWrapper.mk 0 (some (Decoder.mk false (some 5)))) [] =
        Outcome.ok (w2,
          if ((Decoder.mk false (some 5)).Reset none).2 = none
          then PoolItem.dw w2 :: [] else []) ∧
      DecoderPoolWrapper.Put [] (DecoderWrapper.mk 0 (some (Decoder.mk false (some 5)))) =
        Outcome.ok (w2,
          if ((Decoder.mk false (some 5)).Reset none).2 = none
          then PoolItem.dw w2 :: [] else []) ∧
      ((Decoder.mk false (some 5)).Reset none).1.closed =
        (Decoder.mk false (some 5)).closed :=
  C1_release_reset_gates_pooling
    (DecoderWrapper.mk 0 (some (Decoder.mk false (some 5)))) []
    (Decoder.mk false (some 5)) rfl

/-- C2: every wrapper held idle in a reachable decoder pool is a
`*DecoderWrapper` embedding a live handle (non-nil, not terminally closed,
so every subsequent `Reset` succeeds) whose source is empty. -/
theorem C2_pool_holds_only_healthy_wrappers (p : List PoolItem)
    (hp : DReach p) :
    ∀ it ∈ p, ∃ w d, it = PoolItem.dw w ∧ w.Decoder = some d ∧
      d.closed = false ∧ d.source = none ∧ ∀ r, (d.Reset r).2 = none := by
  intro it hit
  obtain ⟨w, d, hdw, hwd, hc, hs⟩ := dreach_healthy hp it hit
  exact ⟨w, d, hdw, hwd, hc, hs, fun r => by simp [Decoder.Reset, hc]⟩

/-- C2 witness: the pool obtained by Put of a live wrapper bound to source 7
is reachable, and its single item satisfies the invariant. -/
theorem C2_pool_invariant_witness :
    ∃ w d,
      PoolItem.dw (DecoderWrapper.mk 1 (some (Decoder.mk false none))) =
        PoolItem.dw w ∧
      w.Decoder = some d ∧ d.closed = false ∧ d.source = none ∧
      ∀ r, (d.Reset r).2 = none :=
  C2_pool_holds_only_healthy_wrappers
    [PoolItem.dw (DecoderWrapper.mk 1 (some (Decoder.mk false none)))]
    (DReach.step DReach.empty
      (DStep.put (DecoderWrapper.mk 1 (some (Decoder.mk false (some 7))))
        (DecoderWrapper.mk 1 (some (Decoder.mk false none))) []
        [PoolItem.dw (DecoderWrapper.mk 1 (some (Decoder.mk false none)))]
        (by decide)))
    (PoolItem.dw (DecoderWrapper.mk 1 (some (Decoder.mk false none))))
    (by simp)

/-- C3 counterexample: on a live wrapper bound to source 9, the finalizer
registered by `NewDecoderPool` terminally closes the embedded handle and
leaves the pool untouched, while the release path (`DecoderWrapper.Close`)
would keep the handle open and return the wrapper to the pool — so the
finalizer does not invoke the release path. -/
theorem C3_finalizer_cex :
    decoderFinalizer (DecoderWrapper.mk 2 (some (Decoder.mk false (some 9)))) [] =
      Outcome.ok (DecoderWrapper.mk 2 (some (Decoder.mk true (some 9))), []) ∧
    DecoderWrapper.Close (DecoderWrapper.mk 2 (some (Decoder.mk false (some 9)))) [] =
      Outcome.ok (DecoderWrapper.mk 2 (some (Decoder.mk false none)),
        [PoolItem.dw (DecoderWrapper.mk 2 (some (Decoder.mk false none)))]) ∧
    decoderFinalizer (DecoderWrapper.mk 2 (some (Decoder.mk false (some 9)))) [] ≠
      DecoderWrapper.Close (DecoderWrapper.mk 2 (some (Decoder.mk false (some 9)))) [] := by
  decide

/-- C3 (amended): the finalizer callback registered by `NewDecoderPool`
unconditionally terminally closes the embedded decoder handle and never
returns the wrapper to the pool; it does not invoke the release path. -/
theorem C3_finalizer_closes_terminally (dw : DecoderWrapper) (d : Decoder)
    (pool : List PoolItem) (h : dw.Decoder = some d) :
    decoderFinalizer dw pool =
      Outcome.ok ({ dw with Decoder := some d.Close }, pool) ∧
    d.Close.closed = true := by
  simp [decoderFinalizer, h, Decoder.Close]

/-- C3 (amended) witness at a live wrapper bound to source 4. -/
theorem C3_finalizer_closes_witness :
    decoderFinalizer (DecoderWrapper.mk 3 (some (Decoder.mk false (some 4)))) [] =
      Outcome.ok ({ DecoderWrapper.mk 3 (some (Decoder.mk false (some 4))) with
        Decoder := some (Decoder.mk false (some 4)).Close }, []) ∧
    (Decoder.mk false (some 4)).Close.closed = true :=
  C3_finalizer_closes_terminally
    (DecoderWrapper.mk 3 (some (Decoder.mk false (some 4))))
    (Decoder.mk false (some 4)) [] rfl

/-- C4: `Get` resets the obtained wrapper against `r` before returning it;
when that reset fails it panics (raises an unrecoverable fault) instead of
returning an error value, and the reset can fail only when the handle was
terminally closed. -/
theorem C4_get_panics_on_closed_handle (dw : DecoderWrapper) (d : Decoder)
    (r : Option Nat) (h : dw.Decoder = some d) :
    DecoderPoolWrapper.Get (PoolItem.dw dw) r =
      (if d.closed then Outcome.panicked Err.decoderClosed
       else Outcome.ok { dw with Decoder := some { d with source := r } }) ∧
    ((d.Reset r).2 = none ↔ d.closed = false) := by
  rcases d with ⟨dc, ds⟩
  cases dc <;>
    simp [DecoderPoolWrapper.Get, assertDW, Decoder.Reset, h]

/-- C4 witness: on a terminally closed handle, `Get` panics. -/
theorem C4_get_witness :
    DecoderPoolWrapper.Get
        (PoolItem.dw (DecoderWrapper.mk 4 (some (Decoder.mk true none)))) (some 8) =
      (if (Decoder.mk true none).closed then Outcome.panicked Err.decoderClosed
       else Outcome.ok { DecoderWrapper.mk 4 (some (Decoder.mk true none)) with
         Decoder := some { Decoder.mk true none with source := some 8 } }) ∧
    (((Decoder.mk true none).Reset (some 8)).2 = none ↔
      (Decoder.mk true none).closed = false) :=
  C4_get_panics_on_closed_handle (DecoderWrapper.mk 4 (some (Decoder.mk true none)))
    (Decoder.mk true none) (some 8) rfl

/-- C5: the stream adapter from `DecoderWrapper.IOReadCloser` closes with a
nil error always, forwards to the wrapper's release (`DecoderWrapper.Close`,
producing the same pool), and never terminally closes the handle. -/
theorem C5_stream_close_always_nil (w : DecoderWrapper) (d : Decoder)
    (pool : List PoolItem) (h : w.Decoder = some d) :
    ∃ c w2 pool2,
      w.IOReadCloser = Outcome.ok c ∧ c.dw = w ∧
      DecoderWrapper.Close w pool = Outcome.ok (w2, pool2) ∧
      decoderReadCloser.Close c pool =
        Outcome.ok ((decoderReadCloser.mk w2 c.Reader, pool2), none) ∧
      w2.Decoder = some (d.Reset none).1 ∧
      (d.Reset none).1.closed = d.closed := by
  rcases d with ⟨dc, ds⟩
  cases dc
  · refine ⟨decoderReadCloser.mk w (StreamView.ofDecoder (Decoder.mk false ds)),
      { w with Decoder := some (Decoder.mk false none) },
      PoolItem.dw { w with Decoder := some (Decoder.mk false none) } :: pool,
      ?_, rfl, ?_, ?_, ?_, ?_⟩ <;>
      simp [DecoderWrapper.IOReadCloser, DecoderWrapper.Close,
        decoderReadCloser.Close, Decoder.Reset, h]
  · refine ⟨decoderReadCloser.mk w (StreamView.ofDecoder (Decoder.mk true ds)),
      { w with Decoder := some (Decoder.mk true ds) }, pool,
      ?_, rfl, ?_, ?_, ?_, ?_⟩ <;>
      simp [DecoderWrapper.IOReadCloser, DecoderWrapper.Close,
        decoderReadCloser.Close, Decoder.Reset, h]

/-- C5 witness at a live wrapper bound to source 6. -/
theorem C5_stream_close_witness :
    ∃ c w2 pool2,
      (DecoderWrapper.mk 5 (some (Decoder.mk false (some 6)))).IOReadCloser =
        Outcome.ok c ∧
      c.dw = DecoderWrapper.mk 5 (some (Decoder.mk false (some 6))) ∧
      DecoderWrapper.Close (DecoderWrapper.mk 5 (some (Decoder.mk false (some 6)))) [] =
        Outcome.ok (w2, pool2) ∧
      decoderReadCloser.Close c [] =
        Outcome.ok ((decoderReadCloser.mk w2 c.Reader, pool2), none) ∧
      w2.Decoder = some ((Decoder.mk false (some 6)).Reset none).1 ∧
      ((Decoder.mk false (some 6)).Reset none).1.closed =
        (Decoder.mk false (some 6)).closed :=
  C5_stream_close_always_nil
    (DecoderWrapper.mk 5 (some (Decoder.mk false (some 6))))
    (Decoder.mk false (some 6)) [] rfl

/-- C6: `EncoderPoolWrapper.Put` resets the encoder's target to nil and then
always places the wrapper in the pool (no success gating), so a subsequent
`EncoderPoolWrapper.Get` on the pooled wrapper never observes a stale
target: it hands out the wrapper rebound to the caller's writer. -/
theorem C6_encoder_put_always_pools (pool : List PoolItem) (w : EncoderWrapper)
    (e : Encoder) (h : w.Encoder = some e) :
    ∃ w2 : EncoderWrapper,
      EncoderPoolWrapper.Put pool w = Outcome.ok (w2, PoolItem.ew w2 :: pool) ∧
      w2.Encoder = some (e.Reset none) ∧
      (e.Reset none).target = none ∧
      ∀ t, EncoderPoolWrapper.Get (PoolItem.ew w2) t =
          Outcome.ok { w2 with Encoder := some ((e.Reset none).Reset t) } ∧
        ((e.Reset none).Reset t).target = t := by
  refine ⟨{ w with Encoder := some (e.Reset none) }, ?_, rfl, rfl, ?_⟩
  · simp [EncoderPoolWrapper.Put, h]
  · intro t
    exact ⟨by simp [EncoderPoolWrapper.Get, assertEW], rfl⟩

/-- C6 witness: an encoder wrapper bound to target 3 is reset and pooled. -/
theorem C6_encoder_put_witness :
    ∃ w2 : EncoderWrapper,
      EncoderPoolWrapper.Put []
          (EncoderWrapper.mk 6 (some (Encoder.mk false (some 3)))) =
        Outcome.ok (w2, PoolItem.ew w2 :: []) ∧
      w2.Encoder = some ((Encoder.mk false (some 3)).Reset none) ∧
      ((Encoder.mk false (some 3)).Reset none).target = none ∧
      ∀ t, EncoderPoolWrapper.Get (PoolItem.ew w2) t =
          Outcome.ok { w2 with
            Encoder := some (((Encoder.mk false (some 3)).Reset none).Reset t) } ∧
        (((Encoder.mk false (some 3)).Reset none).Reset t).target = t :=
  C6_encoder_put_always_pools []
    (EncoderWrapper.mk 6 (some (Encoder.mk false (some 3))))
    (Encoder.mk false (some 3)) rfl

/-- C7: the finalizer callback registered by `NewEncoderPool` terminally
closes the embedded encoder handle (calls the engine's `Close`). -/
theorem C7_encoder_finalizer_closes (ew : EncoderWrapper) (e : Encoder)
    (h : ew.Encoder = some e) :
    encoderFinalizer ew = Outcome.ok { ew with Encoder := some e.Close } ∧
    e.Close.closed = true := by
  simp [encoderFinalizer, h, Encoder.Close]

/-- C7 witness at a live encoder bound to target 2. -/
theorem C7_encoder_finalizer_witness :
    encoderFinalizer (EncoderWrapper.mk 7 (some (Encoder.mk false (some 2)))) =
      Outcome.ok { EncoderWrapper.mk 7 (some (Encoder.mk false (some 2))) with
        Encoder := some (Encoder.mk false (some 2)).Close } ∧
    (Encoder.mk false (some 2)).Close.closed = true :=
  C7_encoder_finalizer_closes
    (EncoderWrapper.mk 7 (some (Encoder.mk false (some 2))))
    (Encoder.mk false (some 2)) rfl

/-- C8: the construction functions installed by `NewEncoderPool` and
`NewDecoderPool` ignore the engine constructor's error: the produced wrapper
does not depend on it, is always produced, and embeds exactly the
possibly-nil handle — so a construction failure is never reported to the
acquiring caller. -/
theorem C8_construction_error_discarded (i : Nat) (e : Option Encoder)
    (d : Option Decoder) (e1 e2 : Option Err) :
    NewEncoderPoolNew i (e, e1) = NewEncoderPoolNew i (e, e2) ∧
    NewDecoderPoolNew i (d, e1) = NewDecoderPoolNew i (d, e2) ∧
    (NewEncoderPoolNew i (e, e1)).Encoder = e ∧
    (NewDecoderPoolNew i (d, e1)).Decoder = d := by
  exact ⟨rfl, rfl, rfl, rfl⟩

/-- C9: in pools populated only by this package's operations, every stored
item is of the corresponding wrapper pointer type, so the unchecked type
assertions in `EncoderPoolWrapper.Get` and `DecoderPoolWrapper.Get` never
reach their panic branch. -/
theorem C9_pool_type_assertions_never_fail (p q : List PoolItem)
    (hd : DReach p) (he : EReach q) :
    (∀ it ∈ p, ∃ w, assertDW it = Outcome.ok w) ∧
    (∀ it ∈ q, ∃ w, assertEW it = Outcome.ok w) := by
  constructor
  · intro it hit
    obtain ⟨w, d, rfl, -, -, -⟩ := dreach_healthy hd it hit
    exact ⟨w, rfl⟩
  · intro it hit
    obtain ⟨w, e, rfl, -, -⟩ := ereach_stored he it hit
    exact ⟨w, rfl⟩

/-- C9 witness: in the reachable singleton pools below, both type
assertions succeed. -/
theorem C9_assert_witness :
    (∃ w, assertDW
        (PoolItem.dw (DecoderWrapper.mk 8 (some (Decoder.mk false none)))) =
      Outcome.ok w) ∧
    (∃ w, assertEW
        (PoolItem.ew (EncoderWrapper.mk 9 (some (Encoder.mk false none)))) =
      Outcome.ok w) :=
  ⟨(C9_pool_type_assertions_never_fail
      [PoolItem.dw (DecoderWrapper.mk 8 (some (Decoder.mk false none)))]
      [PoolItem.ew (EncoderWrapper.mk 9 (some (Encoder.mk false none)))]
      (DReach.step DReach.empty
        (DStep.put (DecoderWrapper.mk 8 (some (Decoder.mk false (some 2))))
          (DecoderWrapper.mk 8 (some (Decoder.mk false none))) []
          [PoolItem.dw (DecoderWrapper.mk 8 (some (Decoder.mk false none)))]
          (by decide)))
      (EReach.step EReach.empty
        (EStep.put (EncoderWrapper.mk 9 (some (Encoder.mk false (some 2))))
          (EncoderWrapper.mk 9 (some (Encoder.mk false none))) []
          [PoolItem.ew (EncoderWrapper.mk 9 (some (Encoder.mk false none)))]
          (by decide)))).1
    (PoolItem.dw (DecoderWrapper.mk 8 (some (Decoder.mk false none))))
    (by simp),
  (C9_pool_type_assertions_never_fail
      [PoolItem.dw (DecoderWrapper.mk 8 (some (Decoder.mk false none)))]
      [PoolItem.ew (EncoderWrapper.mk 9 (some (Encoder.mk false none)))]
      (DReach.step DReach.empty
        (DStep.put (DecoderWrapper.mk 8 (some (Decoder.mk false (some 2))))
          (DecoderWrapper.mk 8 (some (Decoder.mk false none))) []
          [PoolItem.dw (DecoderWrapper.mk 8 (some (Decoder.mk false none)))]
          (by decide)))
      (EReach.step EReach.empty
        (EStep.put (EncoderWrapper.mk 9 (some (Encoder.mk false (some 2))))
          (EncoderWrapper.mk 9 (some (Encoder.mk false none))) []
          [PoolItem.ew (EncoderWrapper.mk 9 (some (Encoder.mk false none)))]
          (by decide)))).2
    (PoolItem.ew (EncoderWrapper.mk 9 (some (Encoder.mk false none))))
    (by simp)⟩

/-- C10: the stream adapter keeps no closed flag: closing it twice invokes
the wrapper's release twice, returns a nil error both times, and places the
same wrapper (same identity) into the pool twice. -/
theorem C10_double_stream_close (w : DecoderWrapper) (d : Decoder)
    (pool : List PoolItem) (h : w.Decoder = some d) (hc : d.closed = false) :
    ∃ c w2,
      w.IOReadCloser = Outcome.ok c ∧
      decoderReadCloser.Close c pool =
        Outcome.ok ((decoderReadCloser.mk w2 c.Reader, PoolItem.dw w2 :: pool),
          none) ∧
      decoderReadCloser.Close (decoderReadCloser.mk w2 c.Reader)
          (PoolItem.dw w2 :: pool) =
        Outcome.ok ((decoderReadCloser.mk w2 c.Reader,
          PoolItem.dw w2 :: PoolItem.dw w2 :: pool), none) ∧
      w2.id = w.id := by
  rcases d with ⟨dc, ds⟩
  cases dc
  · refine ⟨decoderReadCloser.mk w (StreamView.ofDecoder (Decoder.mk false ds)),
      { w with Decoder := some (Decoder.mk false none) }, ?_, ?_, ?_, rfl⟩ <;>
      simp [DecoderWrapper.IOReadCloser, decoderReadCloser.Close,
        DecoderWrapper.Close, Decoder.Reset, h]
  · simp at hc

/-- C10 witness at a live wrapper bound to source 11. -/
theorem C10_double_stream_close_witness :
    ∃ c w2,
      (DecoderWrapper.mk 10 (some (Decoder.mk false (some 11)))).IOReadCloser =
        Outcome.ok c ∧
      decoderReadCloser.Close c [] =
        Outcome.ok ((decoderReadCloser.mk w2 c.Reader, PoolItem.dw w2 :: []),
          none) ∧
      decoderReadCloser.Close (decoderReadCloser.mk w2 c.Reader)
          (PoolItem.dw w2 :: []) =
        Outcome.ok ((decoderReadCloser.mk w2 c.Reader,
          PoolItem.dw w2 :: PoolItem.dw w2 :: []), none) ∧
      w2.id = (DecoderWrapper.mk 10 (some (Decoder.mk false (some 11)))).id :=
  C10_double_stream_close
    (DecoderWrapper.mk 10 (some (Decoder.mk false (some 11))))
    (Decoder.mk false (some 11)) [] rfl rfl

end Syncpool
